import Mathlib

/-!
Verification of the cac_graphics resource core: the generational slot
allocator (`core/src/gen_vec.rs`), the OpenGL bind-state cache and draw
dispatcher (`context/src/opengl.rs`), the vertex-layout stride model
(`context/src/vertex_layout.rs`), and the diagnostics channel
(`debug_callback` / `poll_errors` in `context/src/opengl.rs`).

Rust machine integers are modelled as `Nat` with the machine bounds made
explicit where they matter: a fallible `try_into` to a narrower type is a
bound check, and the `u32` generation counter's `+= 1` is `% 2^32`
(`U32_MOD`), the wrapping semantics of release builds (debug builds panic
at `u32::MAX`).  Rust `Vec` push/pop at the back is modelled by `List`
cons/head at the front (the same stack).  A Rust panic is modelled as
`Option.none`.
-/

deriving instance DecidableEq for Except

namespace Cac

/-! ## Generational slot allocator (`core/src/gen_vec.rs`) -/

/-- Modulus of the `u32` generation counter: `u32::MAX + 1 = 2^32`.  The
source's `v.generation += 1` wraps modulo this in release builds (debug
builds panic at `u32::MAX` instead of producing a value). -/
def U32_MOD : Nat := 4294967296

/-- Handle to a value inserted into a `GenVec` (`gen_vec.rs` lines 44-48).
The phantom kind tag `K` is compile-time only and does not affect behaviour,
so it is dropped from the model; each resource pool is kept in a separate
field of `Resources` instead. -/
structure Handle where
  index : Nat
  generation : Nat
deriving DecidableEq, Repr

/-- Storage cell of a `GenVec` (`struct Value<V>` in `gen_vec.rs` lines 82-85):
an optional value and the slot's current generation. -/
structure Slot (V : Type) where
  value : Option V
  generation : Nat
deriving DecidableEq, Repr

/-- Generational storage (`struct GenVec<K, V>`, `gen_vec.rs` lines 76-80):
a vector of slots and a stack of reusable indices.  The free stack's top is
the list head (Rust pushes/pops at the `Vec`'s back). -/
structure GenVec (V : Type) where
  values : List (Slot V)
  free : List Nat
deriving DecidableEq, Repr

namespace GenVec

/-- Empty allocator (`GenVec::new`, capacity hints have no observable
effect). -/
def new (V : Type) : GenVec V := ⟨[], []⟩

/-- Lookup (`GenVec::get`, `gen_vec.rs` lines 173-178):
`values.get(index).filter(|r| r.generation == handle.generation).and_then(|r| r.value)`. -/
def get {V : Type} (g : GenVec V) (h : Handle) : Option V :=
  match g.values[h.index]? with
  | some s => if s.generation = h.generation then s.value else none
  | none => none

/-- Insertion (`GenVec::insert`, `gen_vec.rs` lines 217-247).  Pops a free
index if available, bumping that slot's `u32` generation — the source's
`v.generation += 1` (line 225), which wraps modulo `2^32` in release
builds, modelled by the explicit `% U32_MOD` — else appends a fresh slot
with generation 0.  The source `expect`s that a free index is in bounds;
that panic is modelled as `none`. -/
def insert {V : Type} (g : GenVec V) (v : V) : Option (Handle × GenVec V) :=
  match g.free with
  | i :: rest =>
    match g.values[i]? with
    | some s =>
      let gen := (s.generation + 1) % U32_MOD
      some (⟨i, gen⟩, ⟨g.values.set i ⟨some v, gen⟩, rest⟩)
    | none => none
  | [] =>
    some (⟨g.values.length, 0⟩, ⟨g.values ++ [⟨some v, 0⟩], []⟩)

/-- Removal (`GenVec::remove`, `gen_vec.rs` lines 268-276).  Mirrors the
source exactly: when the slot exists and its generation matches the handle,
the index is pushed onto the free stack and the value is `take`n — even if
the slot's value is already `None`.  The generation is *not* changed here. -/
def remove {V : Type} (g : GenVec V) (h : Handle) : Option V × GenVec V :=
  match g.values[h.index]? with
  | some s =>
    if s.generation = h.generation then
      (s.value, ⟨g.values.set h.index ⟨none, s.generation⟩, h.index :: g.free⟩)
    else (none, g)
  | none => (none, g)

end GenVec

/-- One allocator operation, for stating trace properties. -/
inductive Op (V : Type) where
  | insert : V → Op V
  | remove : Handle → Op V
deriving DecidableEq, Repr

namespace GenVec

/-- Effect of one operation on the allocator state; `none` models the
(unreachable-in-practice) panic inside `insert`. -/
def step {V : Type} (g : GenVec V) : Op V → Option (GenVec V)
  | Op.insert v => (g.insert v).map Prod.snd
  | Op.remove h => some (g.remove h).snd

/-- Runs a sequence of operations. -/
def run {V : Type} (g : GenVec V) : List (Op V) → Option (GenVec V)
  | [] => some g
  | op :: ops =>
    match g.step op with
    | some g' => g'.run ops
    | none => none

/-- Generation currently stored in slot `i`, if the slot exists. -/
def slotGen {V : Type} (g : GenVec V) (i : Nat) : Option Nat :=
  (g.values[i]?).map Slot.generation

end GenVec

/-- The remove/insert churn that drives slot 0's generation around the
`u32` range: `cycleOps v g k` removes the currently valid handle `(0, g)`
and re-inserts `v`, `k` times, tracking the wrapped generation.  Running
it `U32_MOD` times from generation 0 returns the slot to generation 0. -/
def cycleOps {V : Type} (v : V) (g : Nat) : Nat → List (Op V)
  | 0 => []
  | k + 1 =>
    Op.remove ⟨0, g⟩ :: Op.insert v :: cycleOps v ((g + 1) % U32_MOD) k

/-! ## Error taxonomy (`context/src/error.rs`) -/

inductive Error where
  | invalidContext (msg : String)
  | resourceNotFound
  | failedToCompileShader (msg : String)
  | failedToLinkShader (msg : String)
  | conversionFailed (msg : String)
  | externalError (msg : String)
deriving DecidableEq, Repr

/-! ## Numeric conversions

Rust's fallible `try_into` onto the native parameter types, with the
machine-integer bounds spelled out. -/

/-- Largest value of the native signed 32-bit type (`i32::MAX`,
`GLint`/`GLsizei`). -/
def I32_MAX : Nat := 2147483647

/-- Largest value of `GLuint` (`u32::MAX`). -/
def U32_MAX : Nat := 4294967295

/-- Largest value of `GLintptr` (`i64::MAX` on the 64-bit targets the crate
builds for). -/
def I64_MAX : Nat := 9223372036854775807

/-! ## Native OpenGL call trace

Only the calls observable by the modelled operations are traced:
`glViewport`/`glScissor` from `render_target::Native::bind`,
`glBindVertexArray` from `vertex_layout::Native::bind`, `glUseProgram` from
the shader program bind, and `glDrawArrays` from `Context::draw`. -/

inductive GLCall where
  | viewport (x y w h : Nat)
  | scissor (x y w h : Nat)
  | bindVertexArray (id : Nat)
  | useProgram (id : Nat)
  | drawArrays (mode start count : Nat)
deriving DecidableEq, Repr

/-- True exactly on a native draw-submission call. -/
def GLCall.isDraw : GLCall → Bool
  | .drawArrays _ _ _ => true
  | _ => false

/-- Unsigned rectangle (`cac_core::math::URect`, four `u32` fields). -/
structure URect where
  x : Nat
  y : Nat
  width : Nat
  height : Nat
deriving DecidableEq, Repr

/-- Client description of a render target
(`context/src/render_target.rs::RenderTarget`); the clear color is never
inspected by the modelled operations, so the packed `Color32` is a `Nat`. -/
structure RenderTarget where
  clearColor : Option Nat
  viewport : URect
deriving DecidableEq, Repr

/-- Native render target (`context/src/opengl/render_target.rs::Native`):
no driver object id, just the viewport and clear color. -/
structure RTNative where
  viewport : URect
  clearColor : Option Nat
deriving DecidableEq, Repr

/-- `render_target::Native::new`: copies viewport and clear color
(infallible; `set_clear_color` only re-assigns the field). -/
def RTNative.new (rt : RenderTarget) : RTNative :=
  ⟨rt.viewport, rt.clearColor⟩

/-- `render_target::Native::bind`: converts the four viewport `u32` fields
to `i32`, failing with the field-naming conversion error, then issues
`glViewport` and `glScissor`. -/
def RTNative.bind (rt : RTNative) : Except Error (List GLCall) :=
  if rt.viewport.x ≤ I32_MAX then
    if rt.viewport.y ≤ I32_MAX then
      if rt.viewport.width ≤ I32_MAX then
        if rt.viewport.height ≤ I32_MAX then
          .ok [GLCall.viewport rt.viewport.x rt.viewport.y rt.viewport.width rt.viewport.height,
               GLCall.scissor rt.viewport.x rt.viewport.y rt.viewport.width rt.viewport.height]
        else .error (.conversionFailed "viewport height conversion wraps i32")
      else .error (.conversionFailed "viewport width conversion wraps i32")
    else .error (.conversionFailed "viewport y conversion wraps i32")
  else .error (.conversionFailed "viewport x conversion wraps i32")

/-- Native vertex layout (`context/src/opengl/vertex_layout.rs::Native`):
holds the driver vertex-array object id. -/
structure LayoutNative where
  id : Nat
deriving DecidableEq, Repr

/-- `vertex_layout::Native::bind`: `glBindVertexArray(self.id)`,
infallible. -/
def LayoutNative.bind (l : LayoutNative) : List GLCall :=
  [GLCall.bindVertexArray l.id]

/-- Modelled from the spec: `shader::Native` — the OpenGL shader-program
type named by `Context::draw`/`create_shader` in `opengl.rs` — is not
present under src/ (the repository is mid-refactor).  Per §4.2 it owns the
driver program id; its `bind` (called without `?` in
`State::bind_shader`) is the infallible native "use program" call. -/
structure ShaderNative where
  id : Nat
deriving DecidableEq, Repr

/-- Modelled from the spec: the shader program's native bind issues a single
native bind call (`glUseProgram(self.id)`), infallible. -/
def ShaderNative.bind (s : ShaderNative) : List GLCall :=
  [GLCall.useProgram s.id]

/-- Shader stage kind (`context/src/shader.rs::Kind`). -/
inductive ShaderKind where
  | vertex
  | fragment
deriving DecidableEq, Repr

/-- Native shader stage (`context/src/opengl/stage.rs::Native`). -/
structure StageNative where
  id : Nat
  kind : ShaderKind
deriving DecidableEq, Repr

/-- Buffer kind (`context/src/buffer.rs::Kind`). -/
inductive BufferKind where
  | vertex
deriving DecidableEq, Repr

/-- Buffer access pattern (`context/src/buffer.rs::Access`). -/
inductive BufferAccess where
  | once
  | frequent
  | always
deriving DecidableEq, Repr

/-- Buffer usage (`context/src/buffer.rs::Usage`). -/
inductive BufferUsage where
  | write
  | read
  | copy
deriving DecidableEq, Repr

/-- `From<buffer::Kind> for GLenum` (`opengl/buffer.rs`):
`Kind::Vertex => gl::ARRAY_BUFFER` (0x8892, Khronos registry value; the
generated `gl43_core` bindings are not under src/). -/
def BufferKind.toGL : BufferKind → Nat
  | .vertex => 0x8892

/-- `From<AccessUsage> for GLenum` (`opengl/buffer.rs`): the nine
STATIC/DYNAMIC/STREAM × DRAW/READ/COPY constants from the Khronos
registry. -/
def accessUsageToGL : BufferAccess → BufferUsage → Nat
  | .once, .write => 0x88E4
  | .frequent, .write => 0x88E8
  | .always, .write => 0x88E0
  | .once, .read => 0x88E5
  | .frequent, .read => 0x88E9
  | .always, .read => 0x88E1
  | .once, .copy => 0x88E6
  | .frequent, .copy => 0x88EA
  | .always, .copy => 0x88E2

/-- Native buffer (`context/src/opengl/buffer.rs::Native`): driver object
id plus the translated kind and usage enums. -/
structure BufferNative where
  id : Nat
  kind : Nat
  usage : Nat
deriving DecidableEq, Repr

/-- Modelled from the spec: the client buffer description `crate::Buffer<T>`
consumed by `Context::create_buffer` (its current struct definition is not
under src/; `opengl/buffer.rs::Native::new` reads fields `kind`, `access`,
`usage`, `data`).  The data slice is modelled by its element count together
with `std::mem::size_of::<T>()`. -/
structure Buffer where
  kind : BufferKind
  access : BufferAccess
  usage : BufferUsage
  data : Option Nat
  elemSize : Nat
deriving DecidableEq, Repr

/-- `buffer::Native::new` (`opengl/buffer.rs`): generates the driver id,
translates the enums, and — when initial data is present — uploads it via
`set_data`, whose byte size `data.len() * size_of::<T>()` must fit `i32`
(else `ConversionFailed "buffer length into i32"`). -/
def BufferNative.new (d : Buffer) (id : Nat) : Except Error BufferNative :=
  let b : BufferNative := ⟨id, d.kind.toGL, accessUsageToGL d.access d.usage⟩
  match d.data with
  | some len =>
    if len * d.elemSize ≤ I32_MAX then .ok b
    else .error (.conversionFailed "buffer length into i32")
  | none => .ok b

/-! ## Vertex layout model (`context/src/vertex_layout.rs`) -/

/-- Component count of an attribute (`vertex_layout.rs::Components`). -/
inductive Components where
  | scalar
  | vec2
  | vec3
  | vec4
deriving DecidableEq, Repr

/-- `Components::count` (`vertex_layout.rs` lines 108-115). -/
def Components.count : Components → Nat
  | .scalar => 1
  | .vec2 => 2
  | .vec3 => 3
  | .vec4 => 4

/-- Element type of an attribute (`vertex_layout.rs::AttributeKind`). -/
inductive AttributeKind where
  | f32
  | u8
deriving DecidableEq, Repr

/-- `AttributeKind::size` (`vertex_layout.rs` lines 125-130):
`size_of::<f32>() = 4`, `size_of::<u8>() = 1`. -/
def AttributeKind.size : AttributeKind → Nat
  | .f32 => 4
  | .u8 => 1

/-- Vertex attribute descriptor (`vertex_layout.rs::VertexAttribute`):
`location: u8`, `local_offset: usize`. -/
structure VertexAttribute where
  location : Nat
  components : Components
  kind : AttributeKind
  normalized : Bool
  localOffset : Nat
deriving DecidableEq, Repr

/-- Stride policy (`vertex_layout.rs::Stride`): explicit byte count or
interleaved over a list of attributes. -/
inductive Stride where
  | interleaved (attrs : List VertexAttribute)
  | bytes (n : Nat)
deriving DecidableEq, Repr

/-- `Stride::stride_bytes` (`vertex_layout.rs` lines 88-97). -/
def Stride.strideBytes : Stride → Nat
  | .bytes n => n
  | .interleaved attrs =>
    (attrs.map fun a => a.kind.size * a.components.count).sum

/-- Modelled from the spec: `vertex_layout::BufferAttributes`, the
attribute-set type consumed by `opengl/vertex_layout.rs`, is not present
under src/.  Per §3 "Vertex Layout" each set holds a list of attribute
descriptors, an optional bound buffer handle, a stride policy and a byte
offset into the buffer. -/
structure BufferAttributes where
  attributes : List VertexAttribute
  buffer : Option Handle
  stridePolicy : Stride
  offset : Nat
deriving DecidableEq, Repr

/-- Modelled from the spec: the set's `stride()` evaluates its stride policy
via `Stride::stride_bytes` (§4.3). -/
def BufferAttributes.stride (b : BufferAttributes) : Nat :=
  b.stridePolicy.strideBytes

/-- Modelled from the spec: `crate::VertexLayout` as consumed by
`Context::create_layout` — an ordered sequence of attribute sets (§3). -/
structure VertexLayout where
  attributes : List BufferAttributes
deriving DecidableEq, Repr

/-- Per-set half of `vertex_layout::Native::set_attributes`
(`opengl/vertex_layout.rs`): for every attribute, `local_offset` must fit
`GLuint`, then the set index must fit `GLuint`; on success the native
attribute-format calls are issued (not traced). -/
def setAttributesInSet (index : Nat) : List VertexAttribute → Except Error Unit
  | [] => .ok ()
  | a :: rest =>
    if a.localOffset ≤ U32_MAX then
      if index ≤ U32_MAX then setAttributesInSet index rest
      else .error (.conversionFailed "attribute index to GLuint")
    else .error (.conversionFailed "local attribute offset to GLuint")

/-- `vertex_layout::Native::set_attributes`: `try_for_each` over the
enumerated attribute sets, short-circuiting on the first error. -/
def setAttributesFrom (index : Nat) : List BufferAttributes → Except Error Unit
  | [] => .ok ()
  | b :: rest =>
    match setAttributesInSet index b.attributes with
    | .error e => .error e
    | .ok _ => setAttributesFrom (index + 1) rest

/-- `vertex_layout::Native::set_buffers`: for every enumerated set with a
bound buffer, resolve the buffer handle (else `ResourceNotFound`), then the
binding location must fit `GLuint`, the byte offset `GLintptr`, and the
computed/explicit stride `GLsizei`; on success `glBindVertexBuffer` is
issued (not traced). -/
def setBuffersFrom (buffers : GenVec BufferNative) (location : Nat) :
    List BufferAttributes → Except Error Unit
  | [] => .ok ()
  | b :: rest =>
    match b.buffer with
    | none => setBuffersFrom buffers (location + 1) rest
    | some bh =>
      match buffers.get bh with
      | none => .error .resourceNotFound
      | some _ =>
        if location ≤ U32_MAX then
          if b.offset ≤ I64_MAX then
            if b.stride ≤ I32_MAX then setBuffersFrom buffers (location + 1) rest
            else .error (.conversionFailed "buffer stride wraps")
          else .error (.conversionFailed "buffer offset wraps")
        else .error (.conversionFailed "buffer location wraps")

/-- `vertex_layout::Native::new` (`opengl/vertex_layout.rs`): generates the
vertex-array object, binds it, then runs `set_attributes` and
`set_buffers`, short-circuiting on error. -/
def LayoutNative.new (layout : VertexLayout) (buffers : GenVec BufferNative)
    (id : Nat) : Except Error LayoutNative :=
  match setAttributesFrom 0 layout.attributes with
  | .error e => .error e
  | .ok _ =>
    match setBuffersFrom buffers 0 layout.attributes with
    | .error e => .error e
    | .ok _ => .ok ⟨id⟩

/-- Modelled from the spec plus the driver oracle: the stage description
`crate::shader::Stage` consumed by `Context::create_stage` (current struct
not under src/; `opengl/stage.rs::Native::new` reads `kind` and `sources`).
`compileOk` and `infoLog` stand for the driver's `glCompileShader` /
`glGetShaderiv(COMPILE_STATUS)` / info-log responses. -/
structure StageDesc where
  kind : ShaderKind
  sources : List String
  compileOk : Bool
  infoLog : String
deriving DecidableEq, Repr

/-- `stage::Native::new` (`opengl/stage.rs`): every source must convert to a
`CString` (fails when it contains a NUL byte), then the driver compiles;
compile status 0 surfaces the driver info log as
`FailedToCompileShader`. -/
def StageNative.new (d : StageDesc) (id : Nat) : Except Error StageNative :=
  if d.sources.any (fun s => s.toList.contains (Char.ofNat 0)) then
    .error (.failedToCompileShader "source is not a valid CString")
  else if d.compileOk then .ok ⟨id, d.kind⟩
  else .error (.failedToCompileShader d.infoLog)

/-- Modelled from the spec plus the driver oracle: the shader program
description for `Context::create_shader` — the list of stage handles (§6),
with `linkOk`/`infoLog` standing for the driver's `glLinkProgram` /
`glGetProgramiv(LINK_STATUS)` / info-log responses. -/
structure ShaderDesc where
  stages : List Handle
  linkOk : Bool
  infoLog : String
deriving DecidableEq, Repr

/-- Modelled from the spec: `shader::Native::new` is not under src/; per
§4.2/§6 it resolves every stage handle in the registry (`ResourceNotFound`
when any is stale), links the program (`FailedToLinkShader` carrying the
driver log on failure), and only then yields the native object. -/
def ShaderNative.new (d : ShaderDesc) (stages : GenVec StageNative)
    (id : Nat) : Except Error ShaderNative :=
  if d.stages.all (fun h => (stages.get h).isSome) then
    if d.linkOk then .ok ⟨id⟩
    else .error (.failedToLinkShader d.infoLog)
  else .error .resourceNotFound

/-! ## Registry, bind-state cache and draw dispatch (`context/src/opengl.rs`) -/

/-- The five typed pools (`struct Resources`, `opengl.rs` lines 27-33). -/
structure Resources where
  buffers : GenVec BufferNative
  layouts : GenVec LayoutNative
  stages : GenVec StageNative
  shaders : GenVec ShaderNative
  renderTargets : GenVec RTNative
deriving DecidableEq, Repr

/-- Empty registry (`Resources::with_capacity`; the capacity hint has no
observable effect). -/
def Resources.empty : Resources :=
  ⟨⟨[], []⟩, ⟨[], []⟩, ⟨[], []⟩, ⟨[], []⟩, ⟨[], []⟩⟩

/-- Bind-state cache (`struct State`, `opengl.rs` lines 51-56). -/
structure State where
  boundLayout : Option Handle
  boundShader : Option Handle
  boundRenderTarget : Option Handle
deriving DecidableEq, Repr

/-- `State::default()` / `State::reset()`: nothing bound. -/
def State.reset : State := ⟨none, none, none⟩

/-- `State::bind_render_target` (`opengl.rs` lines 62-76).  The cache field
is assigned *before* the registry lookup, exactly as in the source; the
native bind (`rt.bind()`, which may fail on viewport conversion) is only
issued when the handle was not already cached.  The source's `get_mut` is
modelled by `get`: `rt.bind` reads but never writes the resource. -/
def State.bindRenderTarget (s : State) (res : Resources) (h : Handle) :
    Except Error Unit × State × List GLCall :=
  if s.boundRenderTarget = some h then (.ok (), s, [])
  else
    let s' := { s with boundRenderTarget := some h }
    match res.renderTargets.get h with
    | some rt =>
      match rt.bind with
      | .ok calls => (.ok (), s', calls)
      | .error e => (.error e, s', [])
    | none => (.error .resourceNotFound, s', [])

/-- `State::bind_shader` (`opengl.rs` lines 78-92); the native bind is
infallible. -/
def State.bindShader (s : State) (res : Resources) (h : Handle) :
    Except Error Unit × State × List GLCall :=
  if s.boundShader = some h then (.ok (), s, [])
  else
    let s' := { s with boundShader := some h }
    match res.shaders.get h with
    | some sh => (.ok (), s', sh.bind)
    | none => (.error .resourceNotFound, s', [])

/-- `State::bind_layout` (`opengl.rs` lines 94-108); the native bind is
infallible. -/
def State.bindLayout (s : State) (res : Resources) (h : Handle) :
    Except Error Unit × State × List GLCall :=
  if s.boundLayout = some h then (.ok (), s, [])
  else
    let s' := { s with boundLayout := some h }
    match res.layouts.get h with
    | some l => (.ok (), s', l.bind)
    | none => (.error .resourceNotFound, s', [])

/-- `State::bind_draw_state` (`opengl.rs` lines 110-121): render target,
then layout, then shader, short-circuiting with `?`. -/
def State.bindDrawState (s : State) (res : Resources)
    (renderTarget layout shader : Handle) :
    Except Error Unit × State × List GLCall :=
  match s.bindRenderTarget res renderTarget with
  | (.error e, s1, c1) => (.error e, s1, c1)
  | (.ok _, s1, c1) =>
    match s1.bindLayout res layout with
    | (.error e, s2, c2) => (.error e, s2, c1 ++ c2)
    | (.ok _, s2, c2) =>
      match s2.bindShader res shader with
      | (.error e, s3, c3) => (.error e, s3, c1 ++ c2 ++ c3)
      | (.ok _, s3, c3) => (.ok (), s3, c1 ++ c2 ++ c3)

/-- Primitive topology (`crate::Primitive`). -/
inductive Primitive where
  | triangles
  | triangleStrip
deriving DecidableEq, Repr

/-- `From<Primitive> for GLenum` (`opengl.rs` lines 399-408):
`GL_TRIANGLES = 4`, `GL_TRIANGLE_STRIP = 5`. -/
def Primitive.toGL : Primitive → Nat
  | .triangles => 4
  | .triangleStrip => 5

/-- The modelled context (`struct Context`, `opengl.rs` lines 124-135): the
registry, the bind cache and the diagnostics buffer.  `nextId` models the
driver's fresh object names (`glGen*`/`glCreate*`); the windowing handle
and cached viewport play no role in any modelled operation. -/
structure Context where
  resources : Resources
  state : State
  errorLog : List String
  nextId : Nat
deriving DecidableEq, Repr

/-- `Context::draw` (`opengl.rs` lines 249-274): bind target/layout/shader,
then convert `start` and `count` to `i32` (in that order, naming the field
on failure), then issue `glDrawArrays`.  Returns the result, the context
after the call, and the native calls issued by the call. -/
def Context.draw (ctx : Context) (renderTarget : Handle) (p : Primitive)
    (shader layout : Handle) (start count : Nat) :
    Except Error Unit × Context × List GLCall :=
  match ctx.state.bindDrawState ctx.resources renderTarget layout shader with
  | (.error e, s', calls) => (.error e, { ctx with state := s' }, calls)
  | (.ok _, s', calls) =>
    if start ≤ I32_MAX then
      if count ≤ I32_MAX then
        (.ok (), { ctx with state := s' },
          calls ++ [GLCall.drawArrays p.toGL start count])
      else (.error (.conversionFailed "count wraps around i32"),
        { ctx with state := s' }, calls)
    else (.error (.conversionFailed "start wraps around i32"),
      { ctx with state := s' }, calls)

/-- `Context::create_render_target` (`opengl.rs` lines 279-285): constructs
the native object (infallible) and inserts it.  As for the allocator,
`none` models the unreachable free-list panic inside `insert`. -/
def Context.createRenderTarget (ctx : Context) (rt : RenderTarget) :
    Option (Except Error Handle × Context) :=
  match ctx.resources.renderTargets.insert (RTNative.new rt) with
  | none => none
  | some (h, rts) =>
    some (.ok h, { ctx with resources := { ctx.resources with renderTargets := rts } })

/-- `Context::create_buffer` (`opengl.rs` lines 309-315): `Native::new(buffer)?`
then insert — a failing construction returns before any insertion. -/
def Context.createBuffer (ctx : Context) (d : Buffer) :
    Option (Except Error Handle × Context) :=
  let id := ctx.nextId
  let ctx0 := { ctx with nextId := id + 1 }
  match BufferNative.new d id with
  | .error e => some (.error e, ctx0)
  | .ok b =>
    match ctx0.resources.buffers.insert b with
    | none => none
    | some (h, bufs) =>
      some (.ok h, { ctx0 with resources := { ctx0.resources with buffers := bufs } })

/-- `Context::create_layout` (`opengl.rs` lines 328-335): construct the
native layout (may fail), insert it, then `bind_layout` the fresh handle
(its native calls are not traced here). -/
def Context.createLayout (ctx : Context) (layout : VertexLayout) :
    Option (Except Error Handle × Context) :=
  let id := ctx.nextId
  let ctx0 := { ctx with nextId := id + 1 }
  match LayoutNative.new layout ctx0.resources.buffers id with
  | .error e => some (.error e, ctx0)
  | .ok nat =>
    match ctx0.resources.layouts.insert nat with
    | none => none
    | some (h, lays) =>
      let res' := { ctx0.resources with layouts := lays }
      match ctx0.state.bindLayout res' h with
      | (.error e, s', _) => some (.error e, { ctx0 with resources := res', state := s' })
      | (.ok _, s', _) => some (.ok h, { ctx0 with resources := res', state := s' })

/-- `Context::create_stage` (`opengl.rs` lines 371-374): `Native::new(shader)?`
then insert. -/
def Context.createStage (ctx : Context) (d : StageDesc) :
    Option (Except Error Handle × Context) :=
  let id := ctx.nextId
  let ctx0 := { ctx with nextId := id + 1 }
  match StageNative.new d id with
  | .error e => some (.error e, ctx0)
  | .ok st =>
    match ctx0.resources.stages.insert st with
    | none => none
    | some (h, sts) =>
      some (.ok h, { ctx0 with resources := { ctx0.resources with stages := sts } })

/-- `Context::create_shader` (`opengl.rs` lines 380-384):
`Native::new(shader, &stages)?` then insert. -/
def Context.createShader (ctx : Context) (d : ShaderDesc) :
    Option (Except Error Handle × Context) :=
  let id := ctx.nextId
  let ctx0 := { ctx with nextId := id + 1 }
  match ShaderNative.new d ctx0.resources.stages id with
  | .error e => some (.error e, ctx0)
  | .ok sh =>
    match ctx0.resources.shaders.insert sh with
    | none => none
    | some (h, shs) =>
      some (.ok h, { ctx0 with resources := { ctx0.resources with shaders := shs } })

/-- A freshly constructed (or reset) context: empty pools, nothing bound,
empty diagnostics buffer. -/
def Context.fresh : Context := ⟨Resources.empty, State.reset, [], 0⟩

/-! ## Diagnostics channel (`debug_callback` / `poll_errors`, `opengl.rs`)

The debug-output GLenum values below are the Khronos registry constants
re-exported by the generated `gl43_core` bindings (not under src/). -/

def DEBUG_SOURCE_API : Nat := 0x8246

def DEBUG_SOURCE_WINDOW_SYSTEM : Nat := 0x8247

def DEBUG_SOURCE_SHADER_COMPILER : Nat := 0x8248

def DEBUG_SOURCE_THIRD_PARTY : Nat := 0x8249

def DEBUG_SOURCE_APPLICATION : Nat := 0x824A

def DEBUG_SOURCE_OTHER : Nat := 0x824B

def DEBUG_TYPE_ERROR : Nat := 0x824C

def DEBUG_TYPE_DEPRECATED_BEHAVIOR : Nat := 0x824D

def DEBUG_TYPE_UNDEFINED_BEHAVIOR : Nat := 0x824E

def DEBUG_TYPE_PORTABILITY : Nat := 0x824F

def DEBUG_TYPE_PERFORMANCE : Nat := 0x8250

def DEBUG_SEVERITY_HIGH : Nat := 0x9146

def DEBUG_SEVERITY_MEDIUM : Nat := 0x9147

def DEBUG_SEVERITY_LOW : Nat := 0x9148

def DEBUG_SEVERITY_NOTIFICATION : Nat := 0x826B

/-- Levels of the structured logging facility (`log` crate). -/
inductive LogLevel where
  | error
  | warn
  | info
  | trace
deriving DecidableEq, Repr

/-- One event sent to the logging facility by `debug_callback`: either the
severity-derived log of the formatted driver message, or the fixed
warning `"graphics context error log filled, discarding new logs"` emitted
when the bounded buffer is full. -/
inductive LogEvent where
  | driver (level : LogLevel) (text : String)
  | logFull
deriving DecidableEq, Repr

/-- True exactly on the buffer-full warning. -/
def LogEvent.isLogFull : LogEvent → Bool
  | .logFull => true
  | _ => false

/-- Source labelling in `debug_callback` (`opengl.rs` lines 419-427). -/
def sourceStr (source : Nat) : String :=
  if source = DEBUG_SOURCE_API then "API"
  else if source = DEBUG_SOURCE_SHADER_COMPILER then "SHADER COMPILER"
  else if source = DEBUG_SOURCE_WINDOW_SYSTEM then "WINDOW SYSTEM"
  else if source = DEBUG_SOURCE_OTHER then "OTHER"
  else if source = DEBUG_SOURCE_APPLICATION then "APPLICATION"
  else if source = DEBUG_SOURCE_THIRD_PARTY then "THIRD PARTY"
  else "UNKNOWN"

/-- Category labelling in `debug_callback` (`opengl.rs` lines 429-436). -/
def kindStr (kind : Nat) : String :=
  if kind = DEBUG_TYPE_ERROR then "ERROR"
  else if kind = DEBUG_TYPE_DEPRECATED_BEHAVIOR then "DEPRECATED"
  else if kind = DEBUG_TYPE_UNDEFINED_BEHAVIOR then "UNDEFINED BEHAVIOUR"
  else if kind = DEBUG_TYPE_PORTABILITY then "PORTABILITY"
  else if kind = DEBUG_TYPE_PERFORMANCE then "PERFORMANCE"
  else "UNKNOWN"

/-- Log level derived from the driver severity (`opengl.rs` lines 446-454):
high → error, medium → warn, low → info, notification and anything
unrecognized → trace. -/
def severityLevel (severity : Nat) : LogLevel :=
  if severity = DEBUG_SEVERITY_HIGH then .error
  else if severity = DEBUG_SEVERITY_MEDIUM then .warn
  else if severity = DEBUG_SEVERITY_LOW then .info
  else .trace

/-- Actionable categories (`opengl.rs` lines 463-467): the or-pattern
ERROR | UNDEFINED_BEHAVIOR | DEPRECATED_BEHAVIOR | PORTABILITY |
PERFORMANCE. -/
def isActionable (kind : Nat) : Bool :=
  kind = DEBUG_TYPE_ERROR || kind = DEBUG_TYPE_UNDEFINED_BEHAVIOR ||
  kind = DEBUG_TYPE_DEPRECATED_BEHAVIOR || kind = DEBUG_TYPE_PORTABILITY ||
  kind = DEBUG_TYPE_PERFORMANCE

/-- One incoming driver message: the `(source, type, id, severity, message)`
quintuple handed to the native debug callback. -/
structure DebugMsg where
  source : Nat
  kind : Nat
  id : Nat
  severity : Nat
  message : String
deriving DecidableEq, Repr

/-- The formatted text `"{id}: {kind} from {source}: {message}"` built by
`debug_callback` (`opengl.rs` line 444). -/
def formatMessage (m : DebugMsg) : String :=
  Nat.repr m.id ++ ": " ++ kindStr m.kind ++ " from " ++ sourceStr m.source ++
    ": " ++ m.message

/-- `debug_callback` (`opengl.rs` lines 410-474) with a non-null user
parameter pointing at the context's error log: always logs the formatted
message at the severity-derived level; then, if the buffer already holds 20
entries, warns "log filled" and drops the message, else appends it when its
category is actionable.  Returns the buffer after the call and the log
events emitted, in order. -/
def debugCallback (m : DebugMsg) (log : List String) :
    List String × List LogEvent :=
  let sevEvent := LogEvent.driver (severityLevel m.severity) (formatMessage m)
  if 20 ≤ log.length then
    (log, [sevEvent, LogEvent.logFull])
  else if isActionable m.kind then
    (log ++ [formatMessage m], [sevEvent])
  else (log, [sevEvent])

/-- Runs the debug callback over a sequence of driver messages,
accumulating the emitted log events. -/
def feedMessages (log : List String) : List DebugMsg → List String × List LogEvent
  | [] => (log, [])
  | m :: rest =>
    ((feedMessages (debugCallback m log).1 rest).1,
      (debugCallback m log).2 ++ (feedMessages (debugCallback m log).1 rest).2)

/-- `Context::poll_errors` (`opengl.rs` lines 230-238): `None` on an empty
buffer, else returns the contents and clears the buffer.  The pair is
(returned value, buffer afterwards). -/
def pollErrors (log : List String) : Option (List String) × List String :=
  if log.isEmpty then (none, log) else (some log, [])

namespace GenVec

theorem get_some_elim {V : Type} {g : GenVec V} {h : Handle} {v : V}
    (hv : g.get h = some v) :
    ∃ s, g.values[h.index]? = some s ∧ s.generation = h.generation ∧
      s.value = some v := by
  unfold get at hv
  cases hs : g.values[h.index]? with
  | none => rw [hs] at hv; exact absurd hv (by simp)
  | some s =>
    rw [hs] at hv
    by_cases hgen : s.generation = h.generation
    · exact ⟨s, rfl, hgen, by simpa [hgen] using hv⟩
    · simp [hgen] at hv

theorem lt_length_of_getElem?_some {V : Type} {l : List V} {i : Nat} {s : V}
    (hs : l[i]? = some s) : i < l.length := by
  by_contra hlt
  rw [List.getElem?_eq_none (Nat.le_of_not_lt hlt)] at hs
  exact absurd hs (by simp)

/-- A handle returned by `insert` is immediately valid for the inserted
value. -/
theorem insert_get {V : Type} {g g' : GenVec V} {h : Handle} {v : V}
    (hi : g.insert v = some (h, g')) : g'.get h = some v := by
  unfold insert at hi
  split at hi
  case h_1 j rest hf =>
    split at hi
    case h_1 sj hj =>
      simp only [Option.some.injEq, Prod.mk.injEq] at hi
      obtain ⟨hh, hg⟩ := hi
      rw [← hh, ← hg]
      have := lt_length_of_getElem?_some hj
      simp [get, List.getElem?_set_eq_of_lt _ this]
    case h_2 hj => exact absurd hi (by simp)
  case h_2 hf =>
    simp only [Option.some.injEq, Prod.mk.injEq] at hi
    obtain ⟨hh, hg⟩ := hi
    rw [← hh, ← hg]
    simp [get]

/-- A step never shrinks the slot vector. -/
theorem length_le_of_step {V : Type} {g g' : GenVec V} {op : Op V}
    (hs : g.step op = some g') : g.values.length ≤ g'.values.length := by
  cases op with
  | remove h =>
    simp only [step, Option.some.injEq] at hs
    unfold remove at hs
    split at hs
    case h_1 sh hh =>
      split at hs
      case isTrue hg => subst hs; simp
      case isFalse hg => subst hs; exact Nat.le_refl _
    case h_2 hh => subst hs; exact Nat.le_refl _
  | insert v =>
    simp only [step] at hs
    unfold insert at hs
    split at hs
    case h_1 j rest hf =>
      split at hs
      case h_1 sj hj =>
        simp only [Option.map_some', Option.some.injEq] at hs
        subst hs
        simp
      case h_2 hj => simp at hs
    case h_2 hf =>
      simp only [Option.map_some', Option.some.injEq] at hs
      subst hs
      simp

/-- Once a well-indexed handle fails to resolve, a single further operation
keeps it unresolved — except through the one wrap channel: an insertion
whose (mod 2^32) generation bump lands exactly back on the handle's
generation, reissuing the very same (index, generation) pair.  Reaching
that channel from a freshly invalidated handle requires the slot generation
to travel the full u32 range. -/
theorem get_none_step {V : Type} {g g' : GenVec V} {op : Op V} {h : Handle}
    (hok : h.index < g.values.length) (hnone : g.get h = none)
    (hs : g.step op = some g') :
    g'.get h = none ∨
      ∃ w g'', op = Op.insert w ∧
        g.insert w = some (⟨h.index, h.generation⟩, g'') := by
  obtain ⟨s, hsi⟩ : ∃ s, g.values[h.index]? = some s := by
    cases hsi : g.values[h.index]? with
    | none =>
      rw [List.getElem?_eq_none_iff] at hsi
      omega
    | some s => exact ⟨s, rfl⟩
  cases op with
  | remove h' =>
    left
    simp only [step, Option.some.injEq] at hs
    unfold remove at hs
    split at hs
    case h_1 sh hh =>
      split at hs
      case isTrue hg =>
        subst hs
        by_cases hidx : h'.index = h.index
        · rw [hidx, hsi] at hh
          cases hh
          unfold get
          rw [hidx]
          simp [List.getElem?_set_eq_of_lt _ hok]
        · unfold get at hnone ⊢
          rw [List.getElem?_set_ne hidx]
          exact hnone
      case isFalse hg => subst hs; exact hnone
    case h_2 hh => subst hs; exact hnone
  | insert v =>
    simp only [step] at hs
    unfold insert at hs
    split at hs
    case h_1 j rest hf =>
      split at hs
      case h_1 sj hj =>
        simp only [Option.map_some', Option.some.injEq] at hs
        by_cases hidx : j = h.index
        · subst hidx
          rw [hsi] at hj
          cases hj
          by_cases hgen : (s.generation + 1) % U32_MOD = h.generation
          · right
            refine ⟨v,
              ⟨g.values.set h.index ⟨some v, (s.generation + 1) % U32_MOD⟩,
                rest⟩, rfl, ?_⟩
            unfold insert
            rw [hf]
            simp only [hsi]
            rw [hgen]
          · left
            subst hs
            unfold get
            rw [List.getElem?_set_eq_of_lt _ hok]
            simp [hgen]
        · left
          subst hs
          unfold get at hnone ⊢
          rw [List.getElem?_set_ne hidx]
          exact hnone
      case h_2 hj => simp at hs
    case h_2 hf =>
      left
      simp only [Option.map_some', Option.some.injEq] at hs
      subst hs
      unfold get at hnone ⊢
      rw [List.getElem?_append_left hok]
      exact hnone


/-- While a handle is valid, one operation either keeps the stored value
untouched, removes exactly through that handle, or is an insertion reusing
the handle's slot index (overwrite). -/
theorem get_some_step {V : Type} {g g' : GenVec V} {op : Op V} {h : Handle} {v : V}
    (hv : g.get h = some v) (hs : g.step op = some g') :
    g'.get h = some v ∨ op = Op.remove h ∨
      ∃ w h' g'', op = Op.insert w ∧ g.insert w = some (h', g'') ∧
        h'.index = h.index := by
  obtain ⟨s, hsi, hsgen, hsval⟩ := get_some_elim hv
  have hlt : h.index < g.values.length := lt_length_of_getElem?_some hsi
  cases op with
  | remove h' =>
    simp only [step, Option.some.injEq] at hs
    unfold remove at hs
    split at hs
    case h_1 sh hh =>
      split at hs
      case isTrue hg =>
        subst hs
        by_cases hidx : h'.index = h.index
        · right; left
          rw [hidx, hsi] at hh
          cases hh
          have : h' = h := by
            obtain ⟨hi', hg'⟩ := h'
            obtain ⟨hi, hg''⟩ := h
            simp only [Handle.mk.injEq]
            constructor
            · exact hidx
            · simp only at hg hidx hsgen
              omega
          rw [this]
        · left
          unfold get at hv ⊢
          rw [List.getElem?_set_ne hidx]
          exact hv
      case isFalse hg => subst hs; left; exact hv
    case h_2 hh => subst hs; left; exact hv
  | insert w =>
    simp only [step] at hs
    unfold insert at hs
    split at hs
    case h_1 j rest hf =>
      split at hs
      case h_1 sj hj =>
        simp only [Option.map_some', Option.some.injEq] at hs
        by_cases hidx : j = h.index
        · right; right
          refine ⟨w, ⟨j, (sj.generation + 1) % U32_MOD⟩,
            ⟨g.values.set j ⟨some w, (sj.generation + 1) % U32_MOD⟩, rest⟩,
            rfl, ?_, hidx⟩
          unfold insert
          rw [hf]
          simp [hj]
        · left
          subst hs
          unfold get at hv ⊢
          rw [List.getElem?_set_ne hidx]
          exact hv
      case h_2 hj => simp at hs
    case h_2 hf =>
      simp only [Option.map_some', Option.some.injEq] at hs
      left
      subst hs
      unfold get at hv ⊢
      rw [List.getElem?_append_left hlt]
      exact hv

end GenVec

/-! ## Claims about the allocator (C1, C3, C4) -/

/-- Remove/insert churn on the singleton slot: `k` cycles starting at
generation `g < 2^32` drive the wrapped generation to `(g + k) % 2^32`. -/
theorem run_cycleOps {V : Type} (v : V) :
    ∀ (k g : Nat), g < U32_MOD →
      GenVec.run ⟨[⟨some v, g⟩], []⟩ (cycleOps v g k) =
        some ⟨[⟨some v, (g + k) % U32_MOD⟩], []⟩ := by
  intro k
  induction k with
  | zero =>
    intro g hg
    simp [cycleOps, GenVec.run, Nat.mod_eq_of_lt hg]
  | succ k ih =>
    intro g hg
    have hg' : (g + 1) % U32_MOD < U32_MOD :=
      Nat.mod_lt _ (by norm_num [U32_MOD])
    have h1 : (⟨[⟨some v, g⟩], []⟩ : GenVec V).step (Op.remove ⟨0, g⟩) =
        some ⟨[⟨none, g⟩], [0]⟩ := by
      simp [GenVec.step, GenVec.remove]
    have h2 : (⟨[⟨none, g⟩], [0]⟩ : GenVec V).step (Op.insert v) =
        some ⟨[⟨some v, (g + 1) % U32_MOD⟩], []⟩ := by
      simp [GenVec.step, GenVec.insert]
    simp only [cycleOps]
    unfold GenVec.run
    simp only [h1]
    unfold GenVec.run
    simp only [h2]
    rw [ih ((g + 1) % U32_MOD) hg']
    have harith : ((g + 1) % U32_MOD + k) % U32_MOD =
        (g + (k + 1)) % U32_MOD := by
      unfold U32_MOD
      omega
    rw [harith]

/-- C1 counterexample (reachable wrap-around resurrection): insert 7 into
the empty allocator, obtaining the handle (0,0); the churn sequence
`cycleOps 7 0 2^32` begins by removing exactly that handle — after which
`get (0,0)` is `none` — and then re-inserts/removes 7 on slot 0 until the
`u32` generation (`v.generation += 1`, gen_vec.rs line 225, wrapping in
release builds) comes all the way back to 0.  In the final state the stale
handle (0,0) resolves again: a later insertion reusing the slot index has
resurrected it.  (A debug build panics at the `u32::MAX` increment instead
of returning.) -/
theorem stale_handle_resurrected :
    (GenVec.new Nat).insert 7 = some (⟨0, 0⟩, ⟨[⟨some 7, 0⟩], []⟩) ∧
    cycleOps 7 0 U32_MOD =
      Op.remove ⟨0, 0⟩ :: Op.insert 7 :: cycleOps 7 1 (U32_MOD - 1) ∧
    (⟨[⟨some 7, 0⟩], []⟩ : GenVec Nat).remove ⟨0, 0⟩ =
      (some 7, ⟨[⟨none, 0⟩], [0]⟩) ∧
    GenVec.get (⟨[⟨none, 0⟩], [0]⟩ : GenVec Nat) ⟨0, 0⟩ = none ∧
    GenVec.run (⟨[⟨some 7, 0⟩], []⟩ : GenVec Nat) (cycleOps 7 0 U32_MOD) =
      some ⟨[⟨some 7, 0⟩], []⟩ ∧
    GenVec.get (⟨[⟨some 7, 0⟩], []⟩ : GenVec Nat) ⟨0, 0⟩ = some 7 := by
  refine ⟨by decide, ?_, by decide, by decide, ?_, by decide⟩
  · have he : ∀ (w gg kk : Nat),
        cycleOps w gg (kk + 1) =
          Op.remove ⟨0, gg⟩ :: Op.insert w ::
            cycleOps w ((gg + 1) % U32_MOD) kk :=
      fun _ _ _ => rfl
    have hk : U32_MOD = (U32_MOD - 1) + 1 := by norm_num [U32_MOD]
    calc cycleOps 7 0 U32_MOD
        = cycleOps 7 0 ((U32_MOD - 1) + 1) := by rw [← hk]
      _ = Op.remove ⟨0, 0⟩ :: Op.insert 7 ::
            cycleOps 7 ((0 + 1) % U32_MOD) (U32_MOD - 1) :=
          he 7 0 (U32_MOD - 1)
      _ = Op.remove ⟨0, 0⟩ :: Op.insert 7 :: cycleOps 7 1 (U32_MOD - 1) := by
          norm_num [U32_MOD]
  · rw [run_cycleOps 7 U32_MOD 0 (by norm_num [U32_MOD])]
    norm_num

/-- C1 amended: a handle returned by `insert` initially resolves to the
inserted value; while it resolves, one operation keeps that value unless it
is exactly a remove through that handle or an insertion overwriting the
handle's slot; and once it no longer resolves, any single further operation
keeps it unresolved *except* an insertion whose wrapped (mod 2^32)
generation bump reissues exactly the handle's own (index, generation) pair
— the `u32` wrap channel through which, after 2^32 reuses of one slot, a
stale handle is resurrected (the counterexample reaches it). -/
theorem genVec_handle_lifecycle {V : Type} (g : GenVec V) (h : Handle)
    (hok : h.index < g.values.length) :
    (∀ (w : V) (h' : Handle) (g'' : GenVec V),
        g.insert w = some (h', g'') → g''.get h' = some w) ∧
    (∀ (v : V) (op : Op V) (g' : GenVec V),
        g.get h = some v → g.step op = some g' →
        (g'.get h = some v ∨ op = Op.remove h ∨
          ∃ w h' g'', op = Op.insert w ∧ g.insert w = some (h', g'') ∧
            h'.index = h.index)) ∧
    (∀ (op : Op V) (g' : GenVec V),
        g.get h = none → g.step op = some g' →
        (g'.get h = none ∨
          ∃ w g'', op = Op.insert w ∧
            g.insert w = some (⟨h.index, h.generation⟩, g''))) :=
  ⟨fun _ _ _ hi => GenVec.insert_get hi,
   fun _ _ _ hv hs => GenVec.get_some_step hv hs,
   fun _ _ hn hs => GenVec.get_none_step hok hn hs⟩

/-- Witness for C1 at the allocator holding the single value 5 in slot 0. -/
theorem genVec_handle_lifecycle_witness :
    (⟨0, 0⟩ : Handle).index <
      (⟨[⟨some 5, 0⟩], []⟩ : GenVec Nat).values.length ∧
    ((∀ (w : Nat) (h' : Handle) (g'' : GenVec Nat),
        GenVec.insert ⟨[⟨some 5, 0⟩], []⟩ w = some (h', g'') →
          g''.get h' = some w) ∧
     (∀ (v : Nat) (op : Op Nat) (g' : GenVec Nat),
        GenVec.get ⟨[⟨some 5, 0⟩], []⟩ ⟨0, 0⟩ = some v →
        GenVec.step ⟨[⟨some 5, 0⟩], []⟩ op = some g' →
        (g'.get ⟨0, 0⟩ = some v ∨ op = Op.remove ⟨0, 0⟩ ∨
          ∃ w h' g'', op = Op.insert w ∧
            GenVec.insert ⟨[⟨some 5, 0⟩], []⟩ w = some (h', g'') ∧
            h'.index = (⟨0, 0⟩ : Handle).index)) ∧
     (∀ (op : Op Nat) (g' : GenVec Nat),
        GenVec.get ⟨[⟨some 5, 0⟩], []⟩ ⟨0, 0⟩ = none →
        GenVec.step ⟨[⟨some 5, 0⟩], []⟩ op = some g' →
        (g'.get ⟨0, 0⟩ = none ∨
          ∃ w g'', op = Op.insert w ∧
            GenVec.insert ⟨[⟨some 5, 0⟩], []⟩ w =
              some (⟨(⟨0, 0⟩ : Handle).index,
                (⟨0, 0⟩ : Handle).generation⟩, g'')))) :=
  ⟨by decide, genVec_handle_lifecycle _ _ (by decide)⟩

/-- C3 is violated by the code: on the reachable state where slot 0 is empty
but still at generation 0 and the free stack is `[0]` (obtained by inserting
a value and removing it), removing through the stale handle (0,0) returns
`none` but pushes index 0 onto the free stack a second time. Two later
insertions then both pop index 0, so the second silently clobbers the value
inserted by the first while that value's handle (0,1) was never removed. -/
theorem remove_invalid_mutates_free_stack :
    (GenVec.new Nat).run [Op.insert 7, Op.remove ⟨0, 0⟩] =
      some ⟨[⟨none, 0⟩], [0]⟩ ∧
    GenVec.get (⟨[⟨none, 0⟩], [0]⟩ : GenVec Nat) ⟨0, 0⟩ = none ∧
    GenVec.remove (⟨[⟨none, 0⟩], [0]⟩ : GenVec Nat) ⟨0, 0⟩ =
      (none, ⟨[⟨none, 0⟩], [0, 0]⟩) ∧
    GenVec.insert (⟨[⟨none, 0⟩], [0, 0]⟩ : GenVec Nat) 8 =
      some (⟨0, 1⟩, ⟨[⟨some 8, 1⟩], [0]⟩) ∧
    GenVec.insert (⟨[⟨some 8, 1⟩], [0]⟩ : GenVec Nat) 9 =
      some (⟨0, 2⟩, ⟨[⟨some 9, 2⟩], []⟩) ∧
    GenVec.get (⟨[⟨some 9, 2⟩], []⟩ : GenVec Nat) ⟨0, 1⟩ = none := by
  decide

/-- C4 is false as stated: a successful `remove` does *not* increment the
slot's stored generation — immediately after removing through the valid
handle (0,0) the slot still records generation 0, not a strictly greater
one. -/
theorem remove_keeps_generation_counterexample :
    (GenVec.remove (⟨[⟨some 5, 0⟩], []⟩ : GenVec Nat) ⟨0, 0⟩).fst = some 5 ∧
    (GenVec.remove (⟨[⟨some 5, 0⟩], []⟩ : GenVec Nat) ⟨0, 0⟩).snd.slotGen 0 =
      some 0 := by
  decide

/-- C4 amended: a successful `remove` returns the stored value, clears the
slot (the handle stops resolving), pushes the index onto the free stack and
leaves the slot generation *unchanged*; the increment is deferred to the
next `insert`, which pops that index and issues a handle whose generation
is the removed handle's plus one **modulo 2^32** — the source's `u32`
`v.generation += 1`, which wraps in release builds (and panics in debug
builds at `u32::MAX`). -/
theorem remove_valid_clears_and_insert_bumps {V : Type} (g : GenVec V)
    (h : Handle) (v : V) (hv : g.get h = some v) :
    (g.remove h).fst = some v ∧
    (g.remove h).snd.get h = none ∧
    (g.remove h).snd.slotGen h.index = some h.generation ∧
    (g.remove h).snd.free = h.index :: g.free ∧
    (∀ w : V, (g.remove h).snd.insert w =
      some (⟨h.index, (h.generation + 1) % U32_MOD⟩,
        ⟨((g.remove h).snd.values).set h.index
            ⟨some w, (h.generation + 1) % U32_MOD⟩,
          g.free⟩)) := by
  obtain ⟨s, hsi, hsgen, hsval⟩ := GenVec.get_some_elim hv
  have hlt : h.index < g.values.length := GenVec.lt_length_of_getElem?_some hsi
  have hrem : g.remove h =
      (s.value, ⟨g.values.set h.index ⟨none, s.generation⟩, h.index :: g.free⟩) := by
    simp [GenVec.remove, hsi, hsgen]
  refine ⟨by rw [hrem]; exact hsval, ?_, ?_, by rw [hrem], ?_⟩
  · rw [hrem]
    unfold GenVec.get
    simp [List.getElem?_set_eq_of_lt _ hlt]
  · rw [hrem]
    unfold GenVec.slotGen
    simp [List.getElem?_set_eq_of_lt _ hlt, hsgen]
  · intro w
    rw [hrem]
    unfold GenVec.insert
    simp [List.getElem?_set_eq_of_lt _ hlt, hsgen]

/-- Witness for the amended C4 at the allocator holding 5 in slot 0. -/
theorem remove_valid_clears_and_insert_bumps_witness :
    GenVec.get (⟨[⟨some 5, 0⟩], []⟩ : GenVec Nat) ⟨0, 0⟩ = some 5 ∧
    ((GenVec.remove (⟨[⟨some 5, 0⟩], []⟩ : GenVec Nat) ⟨0, 0⟩).fst = some 5 ∧
     (GenVec.remove (⟨[⟨some 5, 0⟩], []⟩ : GenVec Nat) ⟨0, 0⟩).snd.get ⟨0, 0⟩ = none ∧
     (GenVec.remove (⟨[⟨some 5, 0⟩], []⟩ : GenVec Nat) ⟨0, 0⟩).snd.slotGen
        (⟨0, 0⟩ : Handle).index = some (⟨0, 0⟩ : Handle).generation ∧
     (GenVec.remove (⟨[⟨some 5, 0⟩], []⟩ : GenVec Nat) ⟨0, 0⟩).snd.free =
        (⟨0, 0⟩ : Handle).index :: [] ∧
     (∀ w : Nat,
        (GenVec.remove (⟨[⟨some 5, 0⟩], []⟩ : GenVec Nat) ⟨0, 0⟩).snd.insert w =
          some (⟨(⟨0, 0⟩ : Handle).index,
              ((⟨0, 0⟩ : Handle).generation + 1) % U32_MOD⟩,
            ⟨((GenVec.remove (⟨[⟨some 5, 0⟩], []⟩ : GenVec Nat) ⟨0, 0⟩).snd.values).set
                (⟨0, 0⟩ : Handle).index
                ⟨some w, ((⟨0, 0⟩ : Handle).generation + 1) % U32_MOD⟩,
              []⟩))) :=
  ⟨rfl, remove_valid_clears_and_insert_bumps _ _ _ rfl⟩

/-! ## Bind-state lemmas -/

/-- Whatever a render-target bind request returns, the cache slot records
the requested handle afterwards. -/
theorem bindRenderTarget_bound (s : State) (res : Resources) (h : Handle) :
    ((s.bindRenderTarget res h).2.1).boundRenderTarget = some h := by
  unfold State.bindRenderTarget
  by_cases hc : s.boundRenderTarget = some h
  · simp [hc]
  · cases hget : res.renderTargets.get h with
    | none => simp [hc, hget]
    | some rt =>
      cases hbind : rt.bind with
      | ok calls => simp [hc, hget, hbind]
      | error e => simp [hc, hget, hbind]

/-- Whatever a layout bind request returns, the cache slot records the
requested handle afterwards. -/
theorem bindLayout_bound (s : State) (res : Resources) (h : Handle) :
    ((s.bindLayout res h).2.1).boundLayout = some h := by
  unfold State.bindLayout
  by_cases hc : s.boundLayout = some h
  · simp [hc]
  · cases hget : res.layouts.get h with
    | none => simp [hc, hget]
    | some l => simp [hc, hget]

/-- Whatever a shader bind request returns, the cache slot records the
requested handle afterwards. -/
theorem bindShader_bound (s : State) (res : Resources) (h : Handle) :
    ((s.bindShader res h).2.1).boundShader = some h := by
  unfold State.bindShader
  by_cases hc : s.boundShader = some h
  · simp [hc]
  · cases hget : res.shaders.get h with
    | none => simp [hc, hget]
    | some sh => simp [hc, hget]

/-- The render-target native bind fails only with a conversion error. -/
theorem rtBind_error_conversion {rt : RTNative} {e : Error}
    (h : rt.bind = .error e) : ∃ m, e = .conversionFailed m := by
  unfold RTNative.bind at h
  split at h
  · split at h
    · split at h
      · split at h
        · simp at h
        · injection h with h'
          exact ⟨_, h'.symm⟩
      · injection h with h'
        exact ⟨_, h'.symm⟩
    · injection h with h'
      exact ⟨_, h'.symm⟩
  · injection h with h'
    exact ⟨_, h'.symm⟩

/-- A successful render-target native bind emits no draw-submission call. -/
theorem rtBind_no_draw {rt : RTNative} {calls : List GLCall}
    (h : rt.bind = .ok calls) : calls.all (fun c => !c.isDraw) = true := by
  unfold RTNative.bind at h
  split at h
  · split at h
    · split at h
      · split at h
        · injection h with h'
          rw [← h']
          rfl
        · simp at h
      · simp at h
    · simp at h
  · simp at h

/-- A render-target bind request emits no draw-submission call. -/
theorem bindRenderTarget_no_draw (s : State) (res : Resources) (h : Handle) :
    ((s.bindRenderTarget res h).2.2).all (fun c => !c.isDraw) = true := by
  unfold State.bindRenderTarget
  by_cases hc : s.boundRenderTarget = some h
  · simp [hc]
  · cases hget : res.renderTargets.get h with
    | none => simp [hc, hget]
    | some rt =>
      cases hbind : rt.bind with
      | ok calls => simpa [hc, hget, hbind] using rtBind_no_draw hbind
      | error e => simp [hc, hget, hbind]

/-- A layout bind request emits no draw-submission call. -/
theorem bindLayout_no_draw (s : State) (res : Resources) (h : Handle) :
    ((s.bindLayout res h).2.2).all (fun c => !c.isDraw) = true := by
  unfold State.bindLayout
  by_cases hc : s.boundLayout = some h
  · simp [hc]
  · cases hget : res.layouts.get h with
    | none => simp [hc, hget]
    | some l => simp [hc, hget, LayoutNative.bind, GLCall.isDraw]

/-- A shader bind request emits no draw-submission call. -/
theorem bindShader_no_draw (s : State) (res : Resources) (h : Handle) :
    ((s.bindShader res h).2.2).all (fun c => !c.isDraw) = true := by
  unfold State.bindShader
  by_cases hc : s.boundShader = some h
  · simp [hc]
  · cases hget : res.shaders.get h with
    | none => simp [hc, hget]
    | some sh => simp [hc, hget, ShaderNative.bind, GLCall.isDraw]

/-- The whole bind sequence of a draw emits no draw-submission call. -/
theorem bindDrawState_no_draw (s : State) (res : Resources)
    (rt l sh : Handle) :
    ((s.bindDrawState res rt l sh).2.2).all (fun c => !c.isDraw) = true := by
  unfold State.bindDrawState
  rcases h1 : s.bindRenderTarget res rt with ⟨r1, s1, c1⟩
  have hc1 := bindRenderTarget_no_draw s res rt
  rw [h1] at hc1
  simp only at hc1
  cases r1 with
  | error e => simpa using hc1
  | ok u =>
    rcases h2 : s1.bindLayout res l with ⟨r2, s2, c2⟩
    have hc2 := bindLayout_no_draw s1 res l
    rw [h2] at hc2
    simp only at hc2
    cases r2 with
    | error e => simp [h2, List.all_append, hc1, hc2]
    | ok u2 =>
      rcases h3 : s2.bindShader res sh with ⟨r3, s3, c3⟩
      have hc3 := bindShader_no_draw s2 res sh
      rw [h3] at hc3
      simp only at hc3
      cases r3 with
      | error e => simp [h2, h3, List.all_append, hc1, hc2, hc3]
      | ok u3 => simp [h2, h3, List.all_append, hc1, hc2, hc3]

/-! ## Claims about the bind-state cache (C5, C7) -/

/-- C5: for each of the three bind-state slots, a bind request whose handle
is already cached is a complete no-op — ok result, unchanged cache, no
native call — and consequently the second of two consecutive bind requests
for the same handle performs no cache update and issues no native call, so
the native bind is issued at most once across the pair. -/
theorem bind_same_handle_at_most_once :
    (∀ (s : State) (res : Resources) (h : Handle),
      s.boundRenderTarget = some h → s.bindRenderTarget res h = (.ok (), s, [])) ∧
    (∀ (s : State) (res : Resources) (h : Handle),
      s.boundLayout = some h → s.bindLayout res h = (.ok (), s, [])) ∧
    (∀ (s : State) (res : Resources) (h : Handle),
      s.boundShader = some h → s.bindShader res h = (.ok (), s, [])) ∧
    (∀ (s : State) (res : Resources) (h : Handle),
      ((s.bindRenderTarget res h).2.1).bindRenderTarget res h =
        (.ok (), (s.bindRenderTarget res h).2.1, [])) ∧
    (∀ (s : State) (res : Resources) (h : Handle),
      ((s.bindLayout res h).2.1).bindLayout res h =
        (.ok (), (s.bindLayout res h).2.1, [])) ∧
    (∀ (s : State) (res : Resources) (h : Handle),
      ((s.bindShader res h).2.1).bindShader res h =
        (.ok (), (s.bindShader res h).2.1, [])) := by
  have hitRT : ∀ (s : State) (res : Resources) (h : Handle),
      s.boundRenderTarget = some h → s.bindRenderTarget res h = (.ok (), s, []) := by
    intro s res h hc
    simp [State.bindRenderTarget, hc]
  have hitL : ∀ (s : State) (res : Resources) (h : Handle),
      s.boundLayout = some h → s.bindLayout res h = (.ok (), s, []) := by
    intro s res h hc
    simp [State.bindLayout, hc]
  have hitS : ∀ (s : State) (res : Resources) (h : Handle),
      s.boundShader = some h → s.bindShader res h = (.ok (), s, []) := by
    intro s res h hc
    simp [State.bindShader, hc]
  exact ⟨hitRT, hitL, hitS,
    fun s res h => hitRT _ res h (bindRenderTarget_bound s res h),
    fun s res h => hitL _ res h (bindLayout_bound s res h),
    fun s res h => hitS _ res h (bindShader_bound s res h)⟩

/-- Witness for C5: on the cache that already records render target (0,0),
the rebind is a no-op. -/
theorem bind_same_handle_at_most_once_witness :
    (⟨none, none, some ⟨0, 0⟩⟩ : State).boundRenderTarget = some ⟨0, 0⟩ ∧
    (⟨none, none, some ⟨0, 0⟩⟩ : State).bindRenderTarget Resources.empty ⟨0, 0⟩ =
      (.ok (), ⟨none, none, some ⟨0, 0⟩⟩, []) :=
  ⟨rfl, bind_same_handle_at_most_once.1 ⟨none, none, some ⟨0, 0⟩⟩ Resources.empty ⟨0, 0⟩ rfl⟩

/-- C7: a bind request that fails with ResourceNotFound has nevertheless
recorded the unresolved handle in its cache slot and issued no native
call; an immediately repeated bind of the same handle is treated as a
redundant rebind and reports success without issuing any native call. -/
theorem failed_bind_records_handle :
    (∀ (s s' : State) (res : Resources) (h : Handle) (calls : List GLCall),
      s.bindRenderTarget res h = (.error .resourceNotFound, s', calls) →
      s'.boundRenderTarget = some h ∧ calls = [] ∧
        s'.bindRenderTarget res h = (.ok (), s', [])) ∧
    (∀ (s s' : State) (res : Resources) (h : Handle) (calls : List GLCall),
      s.bindLayout res h = (.error .resourceNotFound, s', calls) →
      s'.boundLayout = some h ∧ calls = [] ∧
        s'.bindLayout res h = (.ok (), s', [])) ∧
    (∀ (s s' : State) (res : Resources) (h : Handle) (calls : List GLCall),
      s.bindShader res h = (.error .resourceNotFound, s', calls) →
      s'.boundShader = some h ∧ calls = [] ∧
        s'.bindShader res h = (.ok (), s', [])) := by
  refine ⟨?_, ?_, ?_⟩
  · intro s s' res h calls hb
    unfold State.bindRenderTarget at hb
    by_cases hc : s.boundRenderTarget = some h
    · simp [hc] at hb
    · simp only [if_neg hc] at hb
      cases hget : res.renderTargets.get h with
      | none =>
        rw [hget] at hb
        simp only [Prod.mk.injEq] at hb
        obtain ⟨-, hs, hcalls⟩ := hb
        refine ⟨by rw [← hs], hcalls.symm, ?_⟩
        rw [← hs]
        simp [State.bindRenderTarget]
      | some rt =>
        simp only [hget] at hb
        cases hbind : rt.bind with
        | ok cs => rw [hbind] at hb; simp at hb
        | error e =>
          rw [hbind] at hb
          simp only [Prod.mk.injEq, Except.error.injEq] at hb
          obtain ⟨he, -, -⟩ := hb
          obtain ⟨m, hm⟩ := rtBind_error_conversion hbind
          rw [hm] at he
          exact absurd he (by simp)
  · intro s s' res h calls hb
    unfold State.bindLayout at hb
    by_cases hc : s.boundLayout = some h
    · simp [hc] at hb
    · simp only [if_neg hc] at hb
      cases hget : res.layouts.get h with
      | none =>
        rw [hget] at hb
        simp only [Prod.mk.injEq] at hb
        obtain ⟨-, hs, hcalls⟩ := hb
        refine ⟨by rw [← hs], hcalls.symm, ?_⟩
        rw [← hs]
        simp [State.bindLayout]
      | some l => rw [hget] at hb; simp at hb
  · intro s s' res h calls hb
    unfold State.bindShader at hb
    by_cases hc : s.boundShader = some h
    · simp [hc] at hb
    · simp only [if_neg hc] at hb
      cases hget : res.shaders.get h with
      | none =>
        rw [hget] at hb
        simp only [Prod.mk.injEq] at hb
        obtain ⟨-, hs, hcalls⟩ := hb
        refine ⟨by rw [← hs], hcalls.symm, ?_⟩
        rw [← hs]
        simp [State.bindShader]
      | some sh => rw [hget] at hb; simp at hb

/-- Witness for C7: the first render-target bind on a fresh cache for the
never-created handle (0,0) fails with ResourceNotFound, records it, and the
repeated bind no-ops successfully. -/
theorem failed_bind_records_handle_witness :
    State.reset.bindRenderTarget Resources.empty ⟨0, 0⟩ =
      (.error .resourceNotFound, ⟨none, none, some ⟨0, 0⟩⟩, []) ∧
    ((⟨none, none, some ⟨0, 0⟩⟩ : State).boundRenderTarget = some ⟨0, 0⟩ ∧
      ([] : List GLCall) = [] ∧
      (⟨none, none, some ⟨0, 0⟩⟩ : State).bindRenderTarget Resources.empty ⟨0, 0⟩ =
        (.ok (), ⟨none, none, some ⟨0, 0⟩⟩, [])) :=
  ⟨by decide,
   failed_bind_records_handle.1 State.reset ⟨none, none, some ⟨0, 0⟩⟩
     Resources.empty ⟨0, 0⟩ [] (by decide)⟩

/-! ## Claims about the draw dispatcher (C2, C6) -/

/-- C2 counterexample: on a fresh context, three successive draws with the
never-created handle (0,0) for target, shader and layout each return
ResourceNotFound — but each failed bind records its handle in the cache, so
the *fourth* draw with the same dead handles returns Ok and issues a native
draw-submission call, even though none of the three handles resolves.  The
claim's "regardless of what sequence of operations preceded the call" is
therefore false. -/
theorem draw_stale_cache_counterexample :
    Context.fresh.draw ⟨0, 0⟩ Primitive.triangles ⟨0, 0⟩ ⟨0, 0⟩ 0 3 =
      (.error .resourceNotFound,
        ⟨Resources.empty, ⟨none, none, some ⟨0, 0⟩⟩, [], 0⟩, []) ∧
    (⟨Resources.empty, ⟨none, none, some ⟨0, 0⟩⟩, [], 0⟩ : Context).draw
        ⟨0, 0⟩ Primitive.triangles ⟨0, 0⟩ ⟨0, 0⟩ 0 3 =
      (.error .resourceNotFound,
        ⟨Resources.empty, ⟨some ⟨0, 0⟩, none, some ⟨0, 0⟩⟩, [], 0⟩, []) ∧
    (⟨Resources.empty, ⟨some ⟨0, 0⟩, none, some ⟨0, 0⟩⟩, [], 0⟩ : Context).draw
        ⟨0, 0⟩ Primitive.triangles ⟨0, 0⟩ ⟨0, 0⟩ 0 3 =
      (.error .resourceNotFound,
        ⟨Resources.empty, ⟨some ⟨0, 0⟩, some ⟨0, 0⟩, some ⟨0, 0⟩⟩, [], 0⟩, []) ∧
    (⟨Resources.empty, ⟨some ⟨0, 0⟩, some ⟨0, 0⟩, some ⟨0, 0⟩⟩, [], 0⟩ : Context).draw
        ⟨0, 0⟩ Primitive.triangles ⟨0, 0⟩ ⟨0, 0⟩ 0 3 =
      (.ok (), ⟨Resources.empty, ⟨some ⟨0, 0⟩, some ⟨0, 0⟩, some ⟨0, 0⟩⟩, [], 0⟩,
        [GLCall.drawArrays 4 0 3]) ∧
    Resources.empty.renderTargets.get ⟨0, 0⟩ = none ∧
    Resources.empty.layouts.get ⟨0, 0⟩ = none ∧
    Resources.empty.shaders.get ⟨0, 0⟩ = none := by
  decide

/-- C2 amended: an erroring draw never issues a native draw-submission
call, and a draw returns ResourceNotFound whenever the first bind (in the
fixed target → layout → shader order) that is not a redundant-rebind no-op
fails to resolve its handle — i.e. the handle is unresolved *and not
already recorded in its cache slot* (as on a fresh or reset context).  The
restriction is forced: a preceding failed bind records the dead handle in
the cache and a later draw treats it as bound (see the counterexample). -/
theorem draw_not_found_guarantees :
    (∀ (ctx : Context) (rt : Handle) (p : Primitive) (sh l : Handle)
       (start count : Nat) (e : Error),
      (ctx.draw rt p sh l start count).1 = .error e →
      ((ctx.draw rt p sh l start count).2.2).all (fun c => !c.isDraw) = true) ∧
    (∀ (ctx : Context) (rt : Handle) (p : Primitive) (sh l : Handle)
       (start count : Nat),
      ctx.resources.renderTargets.get rt = none →
      ctx.state.boundRenderTarget ≠ some rt →
      (ctx.draw rt p sh l start count).1 = .error .resourceNotFound) ∧
    (∀ (ctx : Context) (rt : Handle) (p : Primitive) (sh l : Handle)
       (start count : Nat) (s1 : State) (c1 : List GLCall),
      ctx.state.bindRenderTarget ctx.resources rt = (.ok (), s1, c1) →
      ctx.resources.layouts.get l = none →
      s1.boundLayout ≠ some l →
      (ctx.draw rt p sh l start count).1 = .error .resourceNotFound) ∧
    (∀ (ctx : Context) (rt : Handle) (p : Primitive) (sh l : Handle)
       (start count : Nat) (s1 s2 : State) (c1 c2 : List GLCall),
      ctx.state.bindRenderTarget ctx.resources rt = (.ok (), s1, c1) →
      s1.bindLayout ctx.resources l = (.ok (), s2, c2) →
      ctx.resources.shaders.get sh = none →
      s2.boundShader ≠ some sh →
      (ctx.draw rt p sh l start count).1 = .error .resourceNotFound) := by
  refine ⟨?_, ?_, ?_, ?_⟩
  · intro ctx rt p sh l start count e herr
    have hnd := bindDrawState_no_draw ctx.state ctx.resources rt l sh
    unfold Context.draw at herr ⊢
    rcases hb : ctx.state.bindDrawState ctx.resources rt l sh with ⟨r, s', calls⟩
    rw [hb] at hnd
    simp only at hnd
    cases r with
    | error e' => simpa [hb] using hnd
    | ok u =>
      rw [hb] at herr
      by_cases hstart : start ≤ I32_MAX
      · by_cases hcount : count ≤ I32_MAX
        · simp [hstart, hcount] at herr
        · simpa [hb, hstart, hcount] using hnd
      · simpa [hb, hstart] using hnd
  · intro ctx rt p sh l start count hget hcache
    have hrt : ctx.state.bindRenderTarget ctx.resources rt =
        (.error .resourceNotFound,
          { ctx.state with boundRenderTarget := some rt }, []) := by
      simp [State.bindRenderTarget, hcache, hget]
    unfold Context.draw State.bindDrawState
    rw [hrt]
  · intro ctx rt p sh l start count s1 c1 hrt hget hcache
    have hl : s1.bindLayout ctx.resources l =
        (.error .resourceNotFound, { s1 with boundLayout := some l }, []) := by
      simp [State.bindLayout, hcache, hget]
    unfold Context.draw State.bindDrawState
    simp only [hrt]
    rw [hl]
  · intro ctx rt p sh l start count s1 s2 c1 c2 hrt hl hget hcache
    have hsh : s2.bindShader ctx.resources sh =
        (.error .resourceNotFound, { s2 with boundShader := some sh }, []) := by
      simp [State.bindShader, hcache, hget]
    unfold Context.draw State.bindDrawState
    simp only [hrt, hl]
    rw [hsh]

/-- Witness for the amended C2: a fresh context, dead handle (0,0). -/
theorem draw_not_found_guarantees_witness :
    (Context.fresh.resources.renderTargets.get ⟨0, 0⟩ = none ∧
     Context.fresh.state.boundRenderTarget ≠ some ⟨0, 0⟩) ∧
    (Context.fresh.draw ⟨0, 0⟩ Primitive.triangles ⟨0, 0⟩ ⟨0, 0⟩ 0 3).1 =
      .error .resourceNotFound :=
  ⟨⟨rfl, by decide⟩,
   draw_not_found_guarantees.2.1 Context.fresh ⟨0, 0⟩ Primitive.triangles
     ⟨0, 0⟩ ⟨0, 0⟩ 0 3 rfl (by decide)⟩

/-- C6: when the whole bind sequence succeeds but `start` (checked first) or
`count` exceeds the native `i32` range, draw returns the ConversionFailed
error naming the offending field, issues exactly the bind calls and no
draw-submission call, and the context keeps the bind-state updates (no
rollback). -/
theorem draw_conversion_failure_keeps_binds :
    ∀ (ctx : Context) (rt : Handle) (p : Primitive) (sh l : Handle)
      (start count : Nat) (s' : State) (calls : List GLCall),
      ctx.state.bindDrawState ctx.resources rt l sh = (.ok (), s', calls) →
      ((I32_MAX < start →
        ctx.draw rt p sh l start count =
          (.error (.conversionFailed "start wraps around i32"),
            { ctx with state := s' }, calls)) ∧
       (start ≤ I32_MAX → I32_MAX < count →
        ctx.draw rt p sh l start count =
          (.error (.conversionFailed "count wraps around i32"),
            { ctx with state := s' }, calls)) ∧
       calls.all (fun c => !c.isDraw) = true) := by
  intro ctx rt p sh l start count s' calls hbind
  have hnd := bindDrawState_no_draw ctx.state ctx.resources rt l sh
  rw [hbind] at hnd
  simp only at hnd
  refine ⟨?_, ?_, hnd⟩
  · intro hstart
    unfold Context.draw
    rw [hbind]
    simp [Nat.not_le_of_lt hstart]
  · intro hstart hcount
    unfold Context.draw
    rw [hbind]
    simp [hstart, Nat.not_le_of_lt hcount]

/-- Witness for C6: a context holding a live render target, layout and
shader at handle (0,0); all binds succeed and `start = 2^31` overflows. -/
theorem draw_conversion_failure_keeps_binds_witness :
    (⟨⟨⟨[], []⟩, ⟨[⟨some ⟨1⟩, 0⟩], []⟩, ⟨[], []⟩, ⟨[⟨some ⟨2⟩, 0⟩], []⟩,
        ⟨[⟨some ⟨⟨0, 0, 640, 480⟩, none⟩, 0⟩], []⟩⟩,
      State.reset, [], 3⟩ : Context).state.bindDrawState
      (⟨⟨⟨[], []⟩, ⟨[⟨some ⟨1⟩, 0⟩], []⟩, ⟨[], []⟩, ⟨[⟨some ⟨2⟩, 0⟩], []⟩,
        ⟨[⟨some ⟨⟨0, 0, 640, 480⟩, none⟩, 0⟩], []⟩⟩,
      State.reset, [], 3⟩ : Context).resources ⟨0, 0⟩ ⟨0, 0⟩ ⟨0, 0⟩ =
      (.ok (), ⟨some ⟨0, 0⟩, some ⟨0, 0⟩, some ⟨0, 0⟩⟩,
        [GLCall.viewport 0 0 640 480, GLCall.scissor 0 0 640 480,
         GLCall.bindVertexArray 1, GLCall.useProgram 2]) ∧
    I32_MAX < 2147483648 ∧
    (⟨⟨⟨[], []⟩, ⟨[⟨some ⟨1⟩, 0⟩], []⟩, ⟨[], []⟩, ⟨[⟨some ⟨2⟩, 0⟩], []⟩,
        ⟨[⟨some ⟨⟨0, 0, 640, 480⟩, none⟩, 0⟩], []⟩⟩,
      State.reset, [], 3⟩ : Context).draw ⟨0, 0⟩ Primitive.triangles
        ⟨0, 0⟩ ⟨0, 0⟩ 2147483648 3 =
      (.error (.conversionFailed "start wraps around i32"),
        ⟨⟨⟨[], []⟩, ⟨[⟨some ⟨1⟩, 0⟩], []⟩, ⟨[], []⟩, ⟨[⟨some ⟨2⟩, 0⟩], []⟩,
          ⟨[⟨some ⟨⟨0, 0, 640, 480⟩, none⟩, 0⟩], []⟩⟩,
         ⟨some ⟨0, 0⟩, some ⟨0, 0⟩, some ⟨0, 0⟩⟩, [], 3⟩,
        [GLCall.viewport 0 0 640 480, GLCall.scissor 0 0 640 480,
         GLCall.bindVertexArray 1, GLCall.useProgram 2]) :=
  ⟨by decide, by decide,
   ((draw_conversion_failure_keeps_binds _ ⟨0, 0⟩ Primitive.triangles ⟨0, 0⟩
      ⟨0, 0⟩ 2147483648 3 _ _ (by decide)).1 (by decide))⟩

/-! ## Claim about the stride model (C9) -/

/-- C9: the stride computation returns `n` for the explicit `Bytes(n)`
policy and, for `Interleaved`, the sum over the set's attributes of
element-type size times component count; the interleaved set of a
3-component f32 position and a 4-component f32 color computes
3*4 + 4*4 = 28 bytes. -/
theorem stride_bytes_spec :
    (∀ n : Nat, (Stride.bytes n).strideBytes = n) ∧
    (∀ attrs : List VertexAttribute,
      (Stride.interleaved attrs).strideBytes =
        (attrs.map fun a => a.kind.size * a.components.count).sum) ∧
    (Stride.interleaved
      [⟨0, Components.vec3, AttributeKind.f32, false, 0⟩,
       ⟨1, Components.vec4, AttributeKind.f32, false, 12⟩]).strideBytes = 28 :=
  ⟨fun _ => rfl, fun _ => rfl, rfl⟩

/-! ## Claim about failing creates (C10) -/

/-- A layout bind request fails only when its handle does not resolve in
the registry. -/
theorem bindLayout_error_get_none {s s' : State} {res : Resources}
    {h : Handle} {e : Error} {calls : List GLCall}
    (hb : s.bindLayout res h = (.error e, s', calls)) :
    res.layouts.get h = none := by
  unfold State.bindLayout at hb
  by_cases hc : s.boundLayout = some h
  · simp [hc] at hb
  · simp only [if_neg hc] at hb
    cases hget : res.layouts.get h with
    | none => rfl
    | some l => simp only [hget] at hb; simp at hb

/-- C10: a create operation (buffer, layout, stage, shader program) that
returns an error leaves the resource registry exactly as it was — no handle
allocated, no pool slot filled.  (Native construction precedes insertion;
only success inserts.  For `create_layout` the post-insert self-bind cannot
fail, because the freshly inserted handle always resolves.) -/
theorem create_error_leaves_registry :
    (∀ (ctx ctx' : Context) (d : Buffer) (e : Error),
      ctx.createBuffer d = some (.error e, ctx') →
        ctx'.resources = ctx.resources) ∧
    (∀ (ctx ctx' : Context) (layout : VertexLayout) (e : Error),
      ctx.createLayout layout = some (.error e, ctx') →
        ctx'.resources = ctx.resources) ∧
    (∀ (ctx ctx' : Context) (d : StageDesc) (e : Error),
      ctx.createStage d = some (.error e, ctx') →
        ctx'.resources = ctx.resources) ∧
    (∀ (ctx ctx' : Context) (d : ShaderDesc) (e : Error),
      ctx.createShader d = some (.error e, ctx') →
        ctx'.resources = ctx.resources) := by
  refine ⟨?_, ?_, ?_, ?_⟩
  · intro ctx ctx' d e hcr
    simp only [Context.createBuffer] at hcr
    split at hcr
    · simp only [Option.some.injEq, Prod.mk.injEq] at hcr
      rw [← hcr.2]
    · split at hcr
      · exact absurd hcr (by simp)
      · simp at hcr
  · intro ctx ctx' layout e hcr
    simp only [Context.createLayout] at hcr
    split at hcr
    · simp only [Option.some.injEq, Prod.mk.injEq] at hcr
      rw [← hcr.2]
    case h_2 nat hnew =>
      split at hcr
      · exact absurd hcr (by simp)
      case h_2 h1 lays hins =>
        split at hcr
        case h_1 e' s' calls hb =>
          have h2 : lays.get h1 = none := bindLayout_error_get_none hb
          rw [GenVec.insert_get hins] at h2
          exact absurd h2 (by simp)
        case h_2 h1' s' calls hb =>
          simp at hcr
  · intro ctx ctx' d e hcr
    simp only [Context.createStage] at hcr
    split at hcr
    · simp only [Option.some.injEq, Prod.mk.injEq] at hcr
      rw [← hcr.2]
    · split at hcr
      · exact absurd hcr (by simp)
      · simp at hcr
  · intro ctx ctx' d e hcr
    simp only [Context.createShader] at hcr
    split at hcr
    · simp only [Option.some.injEq, Prod.mk.injEq] at hcr
      rw [← hcr.2]
    · split at hcr
      · exact absurd hcr (by simp)
      · simp at hcr

/-- Witness for C10: creating a buffer whose byte size 536870912 * 4 = 2^31
overflows `i32` fails and leaves the fresh registry empty. -/
theorem create_error_leaves_registry_witness :
    Context.fresh.createBuffer ⟨.vertex, .once, .write, some 536870912, 4⟩ =
      some (.error (.conversionFailed "buffer length into i32"),
        ⟨Resources.empty, State.reset, [], 1⟩) ∧
    (⟨Resources.empty, State.reset, [], 1⟩ : Context).resources =
      Context.fresh.resources :=
  ⟨by decide,
   create_error_leaves_registry.1 Context.fresh
     ⟨Resources.empty, State.reset, [], 1⟩
     ⟨.vertex, .once, .write, some 536870912, 4⟩
     (.conversionFailed "buffer length into i32") (by decide)⟩

/-! ## Claim about the diagnostics channel (C8) -/

/-- Feeding actionable messages into a buffer at or below capacity: the
buffer absorbs them in order up to the 20-entry ceiling, and each excess
message produces exactly one buffer-full warning. -/
theorem feedMessages_actionable (msgs : List DebugMsg) (log : List String)
    (hlen : log.length ≤ 20) (hact : ∀ m ∈ msgs, isActionable m.kind = true) :
    (feedMessages log msgs).1 =
      log ++ (msgs.map formatMessage).take (20 - log.length) ∧
    ((feedMessages log msgs).2.countP LogEvent.isLogFull) =
      msgs.length - (20 - log.length) := by
  induction msgs generalizing log with
  | nil => simp [feedMessages]
  | cons m rest ih =>
    have hactm : isActionable m.kind = true := hact m (by simp)
    have hactr : ∀ m' ∈ rest, isActionable m'.kind = true := fun m' hm' =>
      hact m' (by simp [hm'])
    by_cases hfull : 20 ≤ log.length
    · have h20 : log.length = 20 := Nat.le_antisymm hlen hfull
      have hcb : debugCallback m log =
          (log, [LogEvent.driver (severityLevel m.severity) (formatMessage m),
                 LogEvent.logFull]) := by
        unfold debugCallback
        simp [hfull]
      obtain ⟨ih1, ih2⟩ := ih log hlen hactr
      unfold feedMessages
      rw [hcb]
      constructor
      · rw [ih1, h20]
        simp
      · simp only [List.countP_append]
        rw [ih2, h20]
        simp [List.countP_cons, LogEvent.isLogFull]
        omega
    · have hlt : log.length < 20 := Nat.lt_of_not_le hfull
      have hcb : debugCallback m log =
          (log ++ [formatMessage m],
           [LogEvent.driver (severityLevel m.severity) (formatMessage m)]) := by
        unfold debugCallback
        simp [hfull, hactm]
      obtain ⟨ih1, ih2⟩ := ih (log ++ [formatMessage m]) (by simp; omega) hactr
      unfold feedMessages
      rw [hcb]
      constructor
      · rw [ih1]
        have hsplit : 20 - log.length = (20 - (log.length + 1)) + 1 := by omega
        rw [hsplit]
        simp [List.take_succ_cons, List.length_append]
      · simp only [List.countP_append]
        rw [ih2]
        simp only [List.length_append, List.length_cons, List.length_nil]
        have hz : ([LogEvent.driver (severityLevel m.severity)
            (formatMessage m)]).countP LogEvent.isLogFull = 0 := rfl
        rw [hz]
        omega

/-- C8: feeding capacity+5 = 25 actionable driver messages through the
debug callback fills the buffer to exactly its 20-entry ceiling (the first
20 messages, formatted, in order); each of the 5 excess messages is dropped
with a buffer-full warning logged separately; `poll_errors` then returns
exactly those 20 messages and clears the buffer, so a second call returns
`none`. -/
theorem diagnostics_capacity_scenario (msgs : List DebugMsg)
    (hlen : msgs.length = 25)
    (hact : ∀ m ∈ msgs, isActionable m.kind = true) :
    (feedMessages [] msgs).1 = (msgs.map formatMessage).take 20 ∧
    (feedMessages [] msgs).1.length = 20 ∧
    ((feedMessages [] msgs).2.countP LogEvent.isLogFull) = 5 ∧
    pollErrors (feedMessages [] msgs).1 =
      (some ((msgs.map formatMessage).take 20), []) ∧
    (pollErrors (pollErrors (feedMessages [] msgs).1).2).1 = none := by
  obtain ⟨h1, h2⟩ := feedMessages_actionable msgs [] (by simp) hact
  simp only [List.length_nil, Nat.sub_zero, List.nil_append] at h1 h2
  have hlen20 : ((msgs.map formatMessage).take 20).length = 20 := by
    simp [List.length_take, hlen]
  have hne : ((msgs.map formatMessage).take 20).isEmpty = false := by
    cases hc : (msgs.map formatMessage).take 20 with
    | nil => rw [hc] at hlen20; simp at hlen20
    | cons a t => rfl
  refine ⟨h1, by rw [h1]; exact hlen20, by rw [h2, hlen], ?_, ?_⟩
  · rw [h1]
    unfold pollErrors
    simp [hne]
  · rw [h1]
    unfold pollErrors
    simp [hne]

/-- Witness for C8: 25 high-severity API errors with distinct ids. -/
theorem diagnostics_capacity_scenario_witness :
    (((List.range 25).map (fun i =>
        (⟨DEBUG_SOURCE_API, DEBUG_TYPE_ERROR, i, DEBUG_SEVERITY_HIGH,
          "boom"⟩ : DebugMsg))).length = 25 ∧
     (∀ m ∈ (List.range 25).map (fun i =>
        (⟨DEBUG_SOURCE_API, DEBUG_TYPE_ERROR, i, DEBUG_SEVERITY_HIGH,
          "boom"⟩ : DebugMsg)), isActionable m.kind = true)) ∧
    ((feedMessages [] ((List.range 25).map (fun i =>
        (⟨DEBUG_SOURCE_API, DEBUG_TYPE_ERROR, i, DEBUG_SEVERITY_HIGH,
          "boom"⟩ : DebugMsg)))).2.countP LogEvent.isLogFull) = 5 :=
  ⟨⟨by decide, by decide⟩,
   (diagnostics_capacity_scenario _ (by decide) (by decide)).2.2.1⟩

end Cac
